import Mathlib

/-!
Shallow embedding of `src/app/index.tsx` (the `ScannerScreen` component of the
ScannerQR app) and proofs about its behaviour.

The component is a single screen wiring together a camera scanner, a
geolocation fix, a database handle and a remote web service.  Its behaviour is
a collection of asynchronous flows, each of which we embed as a *trace* of
actions: external requests (alerts, permission requests, the save / fetch web
service calls, clipboard writes, connection close) together with React state
writes (`setXxx` calls).  Each flow is a pure function from the responses of the environment — and, where the code of the flow reads the `active` liveness flag, from
the value of that flag at the moment the awaited call resolves — to the list of
actions the flow performs, in program order.

State application (`applyAction` / `run`) executes the state writes of a trace
on the state record of the screen, mirroring the React `useState` setters.
-/

namespace ScannerScreen

/-- Record type `CodeRecord` from `../src/models`: a persisted scanned-code entity.
The model file is not part of the scanned sources; the shape (opaque id
assigned by the storage layer, decoded content, symbology format) is the one
the screen consumes (`item.id`, `item.content`, `item.format`). -/
structure CodeRecord where
  id : Option String
  content : String
  format : String
  deriving DecidableEq, Repr

/-- Scan event type `BarcodeScanningResult` from `expo-camera`, as consumed by the screen:
`scanData.data` is the decoded payload, `scanData.type` the symbology tag. -/
structure BarcodeScanningResult where
  data : String
  type : String
  deriving DecidableEq, Repr

/-- Coordinates of a `Location.LocationObject` (`coords.latitude`,
`coords.longitude`).  Numeric values are modelled as integers; nothing proved
here depends on the numeral rendering. -/
structure LocationCoords where
  latitude : Int
  longitude : Int
  deriving DecidableEq, Repr

/-- Position type `Location.LocationObject`, as consumed by the screen (`.coords`). -/
structure LocationObject where
  coords : LocationCoords
  deriving DecidableEq, Repr

/-- One observable step of the component: an external request or a React state
write.  Constructor names follow the calls in `src/app/index.tsx`. -/
inductive Action where
  | alert (title msg : String)
  | requestForegroundPermissions
  | getCurrentPosition
  | connectDatabase
  | saveCode (content format : String)
  | fetchAllCodes
  | closeConnection (handle : Nat)
  | setStringAsync (s : String)
  | setCurrentLocation (pos : LocationObject)
  | setLocationError (msg : String)
  | setCodeRecords (records : List CodeRecord)
  | setDatabase (handle : Nat)
  | deactivate
  deriving DecidableEq, Repr

/-- State of the screen: the five `useState` variables relevant to the claims,
plus the `active` liveness flag declared in the mount effect (line 34).
Camera permission state is presentational and not modelled. -/
structure ScreenState where
  currentLocation : Option LocationObject
  locationError : Option String
  codeRecords : List CodeRecord
  database : Option Nat
  active : Bool
  deriving DecidableEq, Repr

/-- Initial state: `useState` initial values (`null`, `null`, `[]`,
`undefined`) and `let active = true`. -/
def initialState : ScreenState :=
  { currentLocation := none
    locationError := none
    codeRecords := []
    database := none
    active := true }

/-- Effect of one action on the screen state.  `setXxx` actions perform the
corresponding React state write; external requests do not touch the state;
`deactivate` is the cleanup of the mount effect `() => { active = false; }`. -/
def applyAction (s : ScreenState) : Action → ScreenState
  | Action.setCurrentLocation pos => { s with currentLocation := some pos }
  | Action.setLocationError msg => { s with locationError := some msg }
  | Action.setCodeRecords records => { s with codeRecords := records }
  | Action.setDatabase handle => { s with database := some handle }
  | Action.deactivate => { s with active := false }
  | _ => s

/-- Run a trace of actions on a state, in order. -/
def run (s : ScreenState) (trace : List Action) : ScreenState :=
  trace.foldl applyAction s

/-- Scan handler `handleScanResult` (lines 20–30): alert with the decoded value, await
`saveCode({ content: scanData.data, format: scanData.type })`, then await
`fetchAllCodes()` and store its result.  `fetchResult` is the list returned by
that fetch.  The callback closes over nothing stateful (`[]` deps) and reads
no liveness flag, so the trace runs to completion regardless of teardown. -/
def handleScanResult (scanData : BarcodeScanningResult)
    (fetchResult : List CodeRecord) : List Action :=
  [ Action.alert "Código detectado" scanData.data
  , Action.saveCode scanData.data scanData.type
  , Action.fetchAllCodes
  , Action.setCodeRecords fetchResult ]

/-- The continuation of `setupLocationService` after
`getCurrentPositionAsync` resolves (line 46): `if (active)
setCurrentLocation(position)`.  `active` is the value of the flag at that moment. -/
def locPositionCont (active : Bool) (position : LocationObject) : List Action :=
  if active then [Action.setCurrentLocation position] else []

/-- The continuation of `setupLocationService` after
`requestForegroundPermissionsAsync` resolves (lines 38–46): `if (!active)
return`, then on a non-granted status set the fixed error message and stop,
otherwise issue the position query and continue with `locPositionCont`.
`activeAtPerm` / `activeAtPos` are the values of the flag when the respective
awaited call resolves. -/
def locPermissionCont (activeAtPerm : Bool) (status : String)
    (position : LocationObject) (activeAtPos : Bool) : List Action :=
  if !activeAtPerm then []
  else if status ≠ "granted" then
    [Action.setLocationError "Permiso de ubicación no otorgado"]
  else
    Action.getCurrentPosition :: locPositionCont activeAtPos position

/-- Location bootstrap `setupLocationService` (lines 36–47): request the foreground location
permission, then run the continuation on the answers of the environment. -/
def setupLocationService (status : String) (activeAtPerm : Bool)
    (position : LocationObject) (activeAtPos : Bool) : List Action :=
  Action.requestForegroundPermissions ::
    locPermissionCont activeAtPerm status position activeAtPos

set_option linter.unusedVariables false in
/-- Database open flow `initializeDatabase` (lines 49–52): await `connectDatabase()` and store
the handle.  The `active` flag is in scope in the enclosing effect but is
*not* consulted here: `activeAtResolve`, the value of the flag when the open
resolves, is ignored and `setDatabase` runs unconditionally. -/
def initializeDatabase (activeAtResolve : Bool) (dbInstance : Nat) :
    List Action :=
  Action.connectDatabase :: [Action.setDatabase dbInstance]

/-- Cleanup of the mount effect (line 57): `() => { active = false; }`. -/
def mountCleanup : List Action :=
  [Action.deactivate]

/-- Body of the `[database]` effect (lines 61–68): if the handle is still
undefined, return without doing anything; otherwise fetch all codes and store
the result (`fetchResult` is the list that fetch returns). -/
def databaseEffectBody (database : Option Nat)
    (fetchResult : List CodeRecord) : List Action :=
  match database with
  | none => []
  | some _ => [Action.fetchAllCodes, Action.setCodeRecords fetchResult]

/-- Cleanup of the `[database]` effect (line 69): registered only when the
body ran past the `if (!database) return;` guard, and then closes the handle
it closed over.  When the handle was undefined no cleanup is registered. -/
def databaseEffectCleanup (database : Option Nat) : List Action :=
  match database with
  | none => []
  | some handle => [Action.closeConnection handle]

/-- React lifecycle of the `[database]` effect after its first run: given the
previous dependency value and the dependency values of the subsequent renders,
re-run (cleanup of the previous run, then the body) exactly when the
dependency changed, and on unmount run the last registered cleanup. -/
def dbEffectSteps (prev : Option Nat) (fetchResult : List CodeRecord) :
    List (Option Nat) → List Action
  | [] => databaseEffectCleanup prev
  | d :: ds =>
    if d = prev then dbEffectSteps prev fetchResult ds
    else
      databaseEffectCleanup prev ++ databaseEffectBody d fetchResult ++
        dbEffectSteps d fetchResult ds

/-- Full lifecycle of the `[database]` effect over a mounted screen: the
dependency value at each render, first render included, ending with unmount.
`fetchResult` is the list returned by `fetchAllCodes` whenever the body
fetches. -/
def dbEffectLifecycle (fetchResult : List CodeRecord) :
    List (Option Nat) → List Action
  | [] => []
  | d :: ds => databaseEffectBody d fetchResult ++ dbEffectSteps d fetchResult ds

/-- Per-item copy action `copyToClipboard` (lines 98–101): put the content of the item
on the clipboard and show a confirmation notice. -/
def copyToClipboard (item : CodeRecord) : List Action :=
  [ Action.setStringAsync item.content
  , Action.alert "Copiado!" "Texto en portapapeles" ]

/-- Status string `locationStatus` (lines 91–95): the status string displayed above the
scanner, computed from the two location state variables. -/
def locationStatus (locationError : Option String)
    (currentLocation : Option LocationObject) : String :=
  match locationError with
  | some e => "Error: " ++ e
  | none =>
    match currentLocation with
    | some pos =>
      "Ubicación: " ++ toString pos.coords.latitude ++ ", " ++
        toString pos.coords.longitude
    | none => "Obteniendo ubicación..."

/-! ### Observations on traces -/

/-- The record-list payload of an action, when the action is a write to the
`codeRecords` state, and `none` otherwise. -/
def recordWrite : Action → Option (List CodeRecord)
  | Action.setCodeRecords records => some records
  | _ => none

/-- All writes to the `codeRecords` state performed by a trace, in order. -/
def recordWrites (trace : List Action) : List (List CodeRecord) :=
  trace.filterMap recordWrite

/-- The `(content, format)` pair of a `saveCode` request, and `none` for any
other action. -/
def saveRequest : Action → Option (String × String)
  | Action.saveCode content format => some (content, format)
  | _ => none

/-- All `saveCode` requests issued by a trace, in order. -/
def saveRequests (trace : List Action) : List (String × String) :=
  trace.filterMap saveRequest

/-- Whether an action is a write to the `codeRecords` state. -/
def isSetCodeRecords : Action → Bool
  | Action.setCodeRecords _ => true
  | _ => false

/-- Whether an action is a `closeConnection` call. -/
def isCloseConnection : Action → Bool
  | Action.closeConnection _ => true
  | _ => false

/-- Whether a trace contains a write to the `currentLocation` state. -/
def writesCurrentLocation (trace : List Action) : Bool :=
  trace.any fun a =>
    match a with
    | Action.setCurrentLocation _ => true
    | _ => false

/-- The writes a trace performs to the two location state variables
(`setCurrentLocation` and `setLocationError`), in order. -/
def locStateWrites (trace : List Action) : List Action :=
  trace.filter fun a =>
    match a with
    | Action.setCurrentLocation _ => true
    | Action.setLocationError _ => true
    | _ => false

/-- Helper for `fetchPrecedesRecordWrites`: every `setCodeRecords` in the
list is immediately preceded by its predecessor being `fetchAllCodes`. -/
def fetchBefore (prev : Action) : List Action → Bool
  | [] => true
  | a :: rest =>
    (!(isSetCodeRecords a) || (prev == Action.fetchAllCodes)) && fetchBefore a rest

/-- Every write to the `codeRecords` state in the trace is immediately
preceded by a `fetchAllCodes` request (so the written value is the result of
a fetch that was just issued and awaited). -/
def fetchPrecedesRecordWrites : List Action → Bool
  | [] => true
  | a :: rest => !(isSetCodeRecords a) && fetchBefore a rest

/-! ### Lifecycle lemmas for the `[database]` effect -/

lemma dbEffectSteps_const (h : Nat) (fetchResult : List CodeRecord) :
    ∀ m : Nat, dbEffectSteps (some h) fetchResult (List.replicate m (some h)) =
      [Action.closeConnection h]
  | 0 => rfl
  | m + 1 => by
    simp only [List.replicate, dbEffectSteps, if_pos rfl]
    exact dbEffectSteps_const h fetchResult m

lemma dbEffectSteps_none (h : Nat) (fetchResult : List CodeRecord) (m : Nat) :
    ∀ n : Nat,
      dbEffectSteps none fetchResult
        (List.replicate n none ++ some h :: List.replicate m (some h)) =
      [Action.fetchAllCodes, Action.setCodeRecords fetchResult,
       Action.closeConnection h]
  | 0 => by
    simp only [List.replicate, List.nil_append, dbEffectSteps,
      databaseEffectCleanup, databaseEffectBody, dbEffectSteps_const,
      if_neg (by simp : ¬ (some h = (none : Option Nat)))]
    rfl
  | n + 1 => by
    simp only [List.replicate, List.cons_append, dbEffectSteps, if_pos rfl]
    exact dbEffectSteps_none h fetchResult m n

lemma dbEffectSteps_noOpen (fetchResult : List CodeRecord) :
    ∀ n : Nat, dbEffectSteps none fetchResult (List.replicate n none) = []
  | 0 => rfl
  | n + 1 => by
    simp only [List.replicate, dbEffectSteps, if_pos rfl]
    exact dbEffectSteps_noOpen fetchResult n

/-- Over any mounted execution in which the handle stays undefined for some
renders, is then set once, and keeps its value until unmount, the
`[database]` effect performs exactly one fetch, one record-list write with the
fetch result, and one close of the handle, in that order. -/
lemma dbEffectLifecycle_once (fetchResult : List CodeRecord) (h : Nat) :
    ∀ n m : Nat,
      dbEffectLifecycle fetchResult
        (List.replicate n none ++ some h :: List.replicate m (some h)) =
      [Action.fetchAllCodes, Action.setCodeRecords fetchResult,
       Action.closeConnection h]
  | 0, m => by
    simp only [List.replicate, List.nil_append, dbEffectLifecycle,
      databaseEffectBody, dbEffectSteps_const]
    rfl
  | n + 1, m => by
    simp only [List.replicate, List.cons_append, dbEffectLifecycle,
      databaseEffectBody]
    exact dbEffectSteps_none h fetchResult m n

/-- If the database open never completes, the `[database]` effect performs no
action at all over the whole lifecycle. -/
lemma dbEffectLifecycle_noOpen (fetchResult : List CodeRecord) :
    ∀ n : Nat, dbEffectLifecycle fetchResult (List.replicate n none) = []
  | 0 => rfl
  | n + 1 => by
    simp only [List.replicate, dbEffectLifecycle, databaseEffectBody]
    exact dbEffectSteps_noOpen fetchResult n

/-! ### Disjointness of the three location status forms -/

lemma error_ne_pending (x : String) :
    "Error: " ++ x ≠ "Obteniendo ubicación..." := by
  intro h
  have hd := congrArg String.data h
  rw [String.data_append] at hd
  simp at hd

lemma ubicacion_ne_pending (x : String) :
    "Ubicación: " ++ x ≠ "Obteniendo ubicación..." := by
  intro h
  have hd := congrArg String.data h
  rw [String.data_append] at hd
  simp at hd

lemma error_ne_ubicacion (x y : String) :
    "Error: " ++ x ≠ "Ubicación: " ++ y := by
  intro h
  have hd := congrArg String.data h
  rw [String.data_append, String.data_append] at hd
  simp at hd

/-! ### Claims -/

/-- C1: for every scan event delivered to `handleScanResult`, the handler
submits exactly the pair `(event.data, event.type)` to the remote save
operation, the fetch-all request comes only after the save in program order
(the save is awaited; no debounce or deduplication, so two detections of the
same code each produce their own independent save), and after the save the
handler issues a full fetch and replaces the in-memory record list wholesale
with the fetch result. -/
theorem scan_saves_exact_pair_then_replaces_list
    (scanData : BarcodeScanningResult) (fetchResult : List CodeRecord)
    (s : ScreenState) :
    handleScanResult scanData fetchResult =
      [ Action.alert "Código detectado" scanData.data
      , Action.saveCode scanData.data scanData.type
      , Action.fetchAllCodes
      , Action.setCodeRecords fetchResult ] ∧
    saveRequests (handleScanResult scanData fetchResult) =
      [(scanData.data, scanData.type)] ∧
    run s (handleScanResult scanData fetchResult) =
      { s with codeRecords := fetchResult } ∧
    saveRequests
        (handleScanResult scanData fetchResult ++
          handleScanResult scanData fetchResult) =
      [(scanData.data, scanData.type), (scanData.data, scanData.type)] :=
  ⟨rfl, rfl, rfl, rfl⟩

/-- C2: across every operation of the screen, the only writes to the
`codeRecords` state pass the return value of the fetch-all operation: the scan
handler and the `[database]` effect each write exactly their fetch result,
immediately after issuing the fetch; the location bootstrap, the database
open, the mount cleanup, the copy action and the effect cleanup write nothing
to the list; and no action other than `setCodeRecords` can change the
`codeRecords` state, so the displayed list is always the exact result of the
most recently completed full fetch, never an incremental or optimistic
update. -/
theorem record_list_only_written_by_fetch_results
    (scanData : BarcodeScanningResult)
    (fetchResult fetchResult2 : List CodeRecord) (status : String)
    (a1 : Bool) (position : LocationObject) (a2 aDb : Bool) (h : Nat)
    (item : CodeRecord) (st : ScreenState) (a : Action) :
    recordWrites (handleScanResult scanData fetchResult) = [fetchResult] ∧
    fetchPrecedesRecordWrites (handleScanResult scanData fetchResult) = true ∧
    recordWrites (setupLocationService status a1 position a2) = [] ∧
    recordWrites (initializeDatabase aDb h) = [] ∧
    recordWrites mountCleanup = [] ∧
    recordWrites (copyToClipboard item) = [] ∧
    recordWrites (databaseEffectBody none fetchResult2) = [] ∧
    recordWrites (databaseEffectBody (some h) fetchResult2) = [fetchResult2] ∧
    fetchPrecedesRecordWrites (databaseEffectBody (some h) fetchResult2) = true ∧
    recordWrites (databaseEffectCleanup (some h)) = [] ∧
    ((applyAction st a).codeRecords = st.codeRecords ∨
      ∃ records, a = Action.setCodeRecords records ∧
        (applyAction st a).codeRecords = records) := by
  refine ⟨rfl, rfl, ?_, rfl, rfl, rfl, rfl, rfl, rfl, rfl, ?_⟩
  · rcases a1 with _ | _ <;> rcases a2 with _ | _ <;>
      by_cases hs : status = "granted" <;>
      simp [setupLocationService, locPermissionCont, locPositionCont,
        recordWrites, recordWrite, hs]
  · cases a <;> simp [applyAction]

/-- C3: while the database handle is undefined the `[database]` effect body
performs no fetch at all (and over a whole lifecycle in which the open never
completes, no action at all); once the handle becomes defined, the lifecycle
performs exactly one full fetch whose result populates the in-memory record
list. -/
theorem initial_fetch_gated_on_handle
    (fetchResult : List CodeRecord) (h n m : Nat) (s : ScreenState) :
    databaseEffectBody none fetchResult = [] ∧
    dbEffectLifecycle fetchResult (List.replicate n none) = [] ∧
    dbEffectLifecycle fetchResult
        (List.replicate n none ++ some h :: List.replicate m (some h)) =
      [Action.fetchAllCodes, Action.setCodeRecords fetchResult,
       Action.closeConnection h] ∧
    (run s (databaseEffectBody (some h) fetchResult)).codeRecords =
      fetchResult :=
  ⟨rfl, dbEffectLifecycle_noOpen fetchResult n,
   dbEffectLifecycle_once fetchResult h n m, rfl⟩

/-- C4: in every lifecycle in which the database open completes (the handle
becomes defined and keeps its value until unmount), `closeConnection` is
called exactly once on that handle, and it is the final action of the
lifecycle — the close happens on teardown and is unconditional. -/
theorem handle_closed_exactly_once_on_teardown
    (fetchResult : List CodeRecord) (h n m : Nat) :
    (dbEffectLifecycle fetchResult
        (List.replicate n none ++ some h :: List.replicate m (some h))).filter
      isCloseConnection = [Action.closeConnection h] ∧
    (dbEffectLifecycle fetchResult
        (List.replicate n none ++ some h :: List.replicate m (some h))).getLast? =
      some (Action.closeConnection h) := by
  rw [dbEffectLifecycle_once fetchResult h n m]
  exact ⟨rfl, rfl⟩

/-- C5: the location bootstrap honours the liveness flag: if the screen is
torn down before the permission request resolves, the flow performs no write
to the location-error or coordinates state at all; and if the screen is torn
down after the permission resolved as granted but before the position fix
resolves, the flow likewise performs no such write — late results are
discarded. -/
theorem location_flow_suppressed_after_teardown
    (status : String) (position : LocationObject) (activeAtPos : Bool) :
    locStateWrites (setupLocationService status false position activeAtPos) =
      [] ∧
    locStateWrites (setupLocationService "granted" true position false) =
      [] := by
  constructor
  · simp [setupLocationService, locPermissionCont, locStateWrites]
  · simp [setupLocationService, locPermissionCont, locPositionCont,
      locStateWrites]

/-- C6: the database-open flow and the scan-handler flow have no cancellation
guard: even when the liveness flag is already false at the moment the open
resolves (the screen was torn down first), the handle is still written to
state; and even on a torn-down screen the scan flow still replaces the record
list with its late fetch result. -/
theorem no_cancellation_guard_for_db_and_scan
    (h : Nat) (scanData : BarcodeScanningResult)
    (fetchResult : List CodeRecord) (s : ScreenState) :
    initializeDatabase false h =
      [Action.connectDatabase, Action.setDatabase h] ∧
    (run { s with active := false } (initializeDatabase false h)).database =
      some h ∧
    (run { s with active := false }
        (handleScanResult scanData fetchResult)).codeRecords = fetchResult :=
  ⟨rfl, rfl, rfl⟩

/-- C7: in every state, the location status string takes exactly one of three
mutually exclusive forms: the pending message exactly when neither location
state variable is set, an error form exactly when the error state is set, and
a coordinates form exactly when a fix was stored and no error is set. -/
theorem location_status_trichotomy
    (le : Option String) (cl : Option LocationObject) :
    (locationStatus le cl = "Obteniendo ubicación..." ↔
      le = none ∧ cl = none) ∧
    ((∃ e, locationStatus le cl = "Error: " ++ e) ↔ ∃ e, le = some e) ∧
    ((∃ pos : LocationObject,
        locationStatus le cl =
          "Ubicación: " ++ toString pos.coords.latitude ++ ", " ++
            toString pos.coords.longitude) ↔
      (le = none ∧ ∃ pos, cl = some pos)) := by
  refine ⟨?_, ?_, ?_⟩
  · cases le with
    | some e =>
      simp only [locationStatus]
      constructor
      · intro hc; exact absurd hc (error_ne_pending e)
      · rintro ⟨hc, -⟩; cases hc
    | none =>
      cases cl with
      | some pos =>
        simp only [locationStatus]
        constructor
        · intro hc
          rw [String.append_assoc, String.append_assoc] at hc
          exact absurd hc (ubicacion_ne_pending _)
        · rintro ⟨-, hc⟩; cases hc
      | none => simp [locationStatus]
  · cases le with
    | some e => simp only [locationStatus]; exact ⟨fun _ => ⟨e, rfl⟩, fun _ => ⟨e, rfl⟩⟩
    | none =>
      cases cl with
      | some pos =>
        simp only [locationStatus]
        constructor
        · rintro ⟨e, hc⟩
          rw [String.append_assoc, String.append_assoc] at hc
          exact absurd hc.symm (error_ne_ubicacion e _)
        · rintro ⟨e, hc⟩; cases hc
      | none =>
        simp only [locationStatus]
        constructor
        · rintro ⟨e, hc⟩
          exact absurd hc.symm (error_ne_pending e)
        · rintro ⟨e, hc⟩; cases hc
  · cases le with
    | some e =>
      simp only [locationStatus]
      constructor
      · rintro ⟨pos, hc⟩
        rw [String.append_assoc, String.append_assoc] at hc
        exact absurd hc (error_ne_ubicacion e _)
      · rintro ⟨hc, -⟩; cases hc
    | none =>
      cases cl with
      | some pos =>
        simp only [locationStatus]
        constructor
        · intro _
          refine ⟨?_, pos, rfl⟩
          trivial
        · intro _
          exact ⟨pos, rfl⟩
      | none =>
        simp only [locationStatus]
        constructor
        · rintro ⟨pos, hc⟩
          rw [String.append_assoc, String.append_assoc] at hc
          exact absurd hc.symm (ubicacion_ne_pending _)
        · rintro ⟨-, pos, hc⟩; cases hc

/-- C8: if the permission request resolves as denied while the screen is
live, the flow sets the error state to the one fixed message and stops: the
trace shows a single permission request (no retry), no position query, and no
coordinates write; moreover no other flow of the screen ever writes the
coordinates state, so the coordinates never populate for the rest of the
session. -/
theorem denied_permission_fixes_error_and_never_fetches_position
    (status : String) (position : LocationObject) (activeAtPos : Bool)
    (scanData : BarcodeScanningResult) (fetchResult : List CodeRecord)
    (aDb : Bool) (h : Nat) (db : Option Nat) (item : CodeRecord)
    (hdenied : status ≠ "granted") :
    setupLocationService status true position activeAtPos =
      [Action.requestForegroundPermissions,
       Action.setLocationError "Permiso de ubicación no otorgado"] ∧
    writesCurrentLocation (handleScanResult scanData fetchResult) = false ∧
    writesCurrentLocation (initializeDatabase aDb h) = false ∧
    writesCurrentLocation (databaseEffectBody db fetchResult) = false ∧
    writesCurrentLocation (databaseEffectCleanup db) = false ∧
    writesCurrentLocation (copyToClipboard item) = false ∧
    writesCurrentLocation mountCleanup = false := by
  refine ⟨?_, rfl, rfl, ?_, ?_, rfl, rfl⟩
  · simp [setupLocationService, locPermissionCont, hdenied]
  · cases db <;> rfl
  · cases db <;> rfl

/-- Witness for C8 at a concrete denied status. -/
theorem denied_permission_witness :
    setupLocationService "denied" true ⟨⟨0, 0⟩⟩ false =
      [Action.requestForegroundPermissions,
       Action.setLocationError "Permiso de ubicación no otorgado"] :=
  (denied_permission_fixes_error_and_never_fetches_position "denied" ⟨⟨0, 0⟩⟩
    false ⟨"ABC123", "qr"⟩ [] false 0 none ⟨none, "x", "qr"⟩
    (by decide)).1

/-- C9: the per-item copy action writes only the content of the item to the
clipboard and shows a notice: it issues no save and no fetch, and running it
leaves the screen state — in particular the record list — unchanged. -/
theorem copy_action_is_pure_frame
    (item : CodeRecord) (s : ScreenState) :
    copyToClipboard item =
      [Action.setStringAsync item.content,
       Action.alert "Copiado!" "Texto en portapapeles"] ∧
    saveRequests (copyToClipboard item) = [] ∧
    Action.fetchAllCodes ∉ copyToClipboard item ∧
    run s (copyToClipboard item) = s := by
  refine ⟨rfl, rfl, ?_, rfl⟩
  simp [copyToClipboard]

/-- C10: the scan handler never reads the database handle state: its trace is
a function of the scan event and the fetch result alone, and for any value of
the handle state — still undefined, or set — the save and the fetch-all are
issued and the record list is replaced all the same; scan-triggered
persistence is not gated on the database lifecycle. -/
theorem scan_flow_ignores_database_handle
    (scanData : BarcodeScanningResult) (fetchResult : List CodeRecord)
    (db : Option Nat) (s : ScreenState) :
    Action.saveCode scanData.data scanData.type ∈
      handleScanResult scanData fetchResult ∧
    Action.fetchAllCodes ∈ handleScanResult scanData fetchResult ∧
    run { s with database := db } (handleScanResult scanData fetchResult) =
      { s with database := db, codeRecords := fetchResult } := by
  refine ⟨?_, ?_, rfl⟩ <;> simp [handleScanResult]

end ScannerScreen
